import Mathlib

/-!
Verification development for the DehydratedCrosshair control-panel application
(src/DehydratedCrosshair.py). Shallow embedding of the settings store, the
atomic JSON writer, the overlay process supervisor and the raid calculator,
followed by theorems about them. Python floats are modelled as exact
rationals; file contents are modelled explicitly; dynamically-typed JSON
values are modelled by an inductive `Json` type; Python exceptions are
modelled by explicit error results.
-/

/-- JSON values as produced by json.load / consumed by json.dump. Numbers are
modelled as exact rationals. -/
inductive Json : Type
  | null : Json
  | bool (b : Bool) : Json
  | num (q : ℚ) : Json
  | str (s : String) : Json
  | arr (xs : List Json) : Json
  | obj (fields : List (String × Json)) : Json

/-- A parsed JSON object: the dict produced by json.load (keys unique). -/
def JsonObj : Type := List (String × Json)

/-- Python truthiness, as applied by the source's bool(...) coercions. -/
def pyBool : Json → Bool
  | .null => false
  | .bool b => b
  | .num q => decide (q ≠ 0)
  | .str s => decide (s ≠ "")
  | .arr [] => false
  | .arr (_ :: _) => true
  | .obj [] => false
  | .obj (_ :: _) => true

/-- Truncation toward zero, the behaviour of Python's int(...) on a float. -/
def ratTrunc (q : ℚ) : Int := if 0 ≤ q then ⌊q⌋ else ⌈q⌉

/-- Python's int(...) coercion applied to a JSON value. Values Python would
raise a TypeError or ValueError on are modelled as errors. -/
def pyInt : Json → Except String Int
  | .bool b => .ok (if b then 1 else 0)
  | .num q => .ok (ratTrunc q)
  | .str s =>
    match s.toInt? with
    | some n => .ok n
    | none => .error "ValueError: invalid literal for int()"
  | _ => .error "TypeError: int() argument"

/-- Python's float(...) coercion applied to a JSON value. Numeric-string
parsing is not modelled (no behaviour verified here depends on it); values
Python would raise on are modelled as errors. -/
def pyFloat : Json → Except String ℚ
  | .bool b => .ok (if b then 1 else 0)
  | .num q => .ok q
  | _ => .error "TypeError: float() argument"

/-- dict.get(key, default) on a parsed JSON object. -/
def jget (fields : JsonObj) (k : String) (d : Json) : Json :=
  match List.lookup k fields with
  | some v => v
  | none => d

/-- STYLE_MAP_TO_JSON from the source: UI style names to overlay JSON names. -/
def STYLE_MAP_TO_JSON : List (String × String) :=
  [("Dot", "dot"), ("Plus", "plus"), ("Cross", "cross")]

/-- COLOR_MAP_TO_JSON from the source: UI color names to overlay JSON names. -/
def COLOR_MAP_TO_JSON : List (String × String) :=
  [("White", "white"), ("Red", "red"), ("Green", "green"), ("Blue", "blue")]

/-- Whether a JSON value is hashable in Python: None, booleans, numbers and
strings are; lists and dicts are not. -/
def jsonHashable : Json → Bool
  | .arr _ => false
  | .obj _ => false
  | _ => true

/-- dict.get(key, default) on a str-keyed map, where the key is a dynamically
typed value. A hashable non-string key (None, bool, number) is never equal to
a string key, so the default is returned; an unhashable key (a JSON list or
dict) makes dict.get raise TypeError. -/
def dictGetStr (m : List (String × String)) (k : Json) (d : String) :
    Except String String :=
  match k with
  | .str s =>
    match List.lookup s m with
    | some v => .ok v
    | none => .ok d
  | .arr _ => .error "TypeError: unhashable type"
  | .obj _ => .error "TypeError: unhashable type"
  | _ => .ok d

/-- The in-memory preference record (SettingsModel's fields). style_ui and
color_ui are dynamically typed in Python (load stores whatever the JSON file
held), so they are modelled as Json values; the UI writes strings there. -/
structure SettingsModel : Type where
  enabled : Bool
  style_ui : Json
  size : Int
  thickness : Int
  outline : Int
  color_ui : Json
  opacity : ℚ
  dark_mode : Bool

/-- SettingsModel.__init__: the default record. -/
def SettingsModel.init : SettingsModel :=
  { enabled := false
    style_ui := .str "Dot"
    size := 6
    thickness := 2
    outline := 0
    color_ui := .str "White"
    opacity := 1
    dark_mode := true }

/-- SettingsModel.to_overlay_json: the overlay configuration projection.
int()/bool() on the typed fields are identities; the opacity written out is
clamped to the unit interval. Python evaluates the dict literal's entries in
order, so a TypeError from the style lookup (an unhashable style_ui, storable
by load) raises before the color lookup, and either lookup's TypeError
propagates to the caller instead of a dict being returned. -/
def SettingsModel.to_overlay_json (m : SettingsModel) : Except String JsonObj :=
  match dictGetStr STYLE_MAP_TO_JSON m.style_ui "dot" with
  | .error e => .error e
  | .ok style =>
    match dictGetStr COLOR_MAP_TO_JSON m.color_ui "white" with
    | .error e => .error e
    | .ok color =>
      .ok [ ("enabled", .bool m.enabled)
          , ("style", .str style)
          , ("size", .num m.size)
          , ("thickness", .num m.thickness)
          , ("outline", .num m.outline)
          , ("color", .str color)
          , ("opacity", .num (max 0 (min 1 m.opacity))) ]

/-- The outcome of trying to read and parse the settings file: the file may
be missing, present but unreadable or not valid JSON (open or json.load
raises), or successfully parsed to a JSON value. -/
inductive FileRead : Type
  | missing : FileRead
  | unreadable : FileRead
  | parsed (j : Json) : FileRead

/-- SettingsModel.load. Returns the record as it stands when the method
returns (Python mutates self field by field, so a failure partway leaves the
earlier assignments in place) together with the exception propagating to the
caller, if any. A missing file and a read/parse failure both return early
with the record untouched; a parsed non-object raises AttributeError at
data.get; int()/float() coercion failures raise partway through. -/
def SettingsModel.load (m : SettingsModel) (file : FileRead) :
    SettingsModel × Option String :=
  match file with
  | .missing => (m, none)
  | .unreadable => (m, none)
  | .parsed data =>
    match data with
    | .obj fields =>
      let m1 := { m with enabled := pyBool (jget fields "enabled" (.bool m.enabled)) }
      let m2 := { m1 with style_ui := jget fields "style_ui" m1.style_ui }
      match pyInt (jget fields "size" (.num m2.size)) with
      | .error e => (m2, some e)
      | .ok size =>
        let m3 := { m2 with size := size }
        match pyInt (jget fields "thickness" (.num m3.thickness)) with
        | .error e => (m3, some e)
        | .ok thickness =>
          let m4 := { m3 with thickness := thickness }
          match pyInt (jget fields "outline" (.num m4.outline)) with
          | .error e => (m4, some e)
          | .ok outline =>
            let m5 := { m4 with outline := outline }
            let m6 := { m5 with color_ui := jget fields "color_ui" m5.color_ui }
            match pyFloat (jget fields "opacity" (.num m6.opacity)) with
            | .error e => (m6, some e)
            | .ok opacity =>
              let m7 := { m6 with opacity := opacity }
              let m8 := { m7 with dark_mode := pyBool (jget fields "dark_mode" (.bool m7.dark_mode)) }
              (m8, none)
    | _ => (m, some "AttributeError: object has no attribute get")

/-- SettingsModel.save: the JSON object serialized to the settings file.
int()/bool()/float() on the typed fields are identities; style_ui and
color_ui are written as-is. -/
def SettingsModel.save (m : SettingsModel) : JsonObj :=
  [ ("enabled", .bool m.enabled)
  , ("style_ui", m.style_ui)
  , ("size", .num m.size)
  , ("thickness", .num m.thickness)
  , ("outline", .num m.outline)
  , ("color_ui", m.color_ui)
  , ("opacity", .num m.opacity)
  , ("dark_mode", .bool m.dark_mode) ]

/-- Contents of a file on disk: either a serialized JSON object (what
json.dump writes and json.load reads back) or opaque non-JSON bytes, such as
the overlay executable or a truncated write. -/
inductive FileData : Type
  | jsonData (o : JsonObj) : FileData
  | binary : FileData

/-- A file system: a partial map from paths to file contents. -/
def FS : Type := String → Option FileData

/-- Point update of a file system. -/
def fsUpdate (fs : FS) (p : String) (v : Option FileData) : FS :=
  fun q => if q = p then v else fs q

/-- The temporary path used by atomic_write_json: path + ".tmp". -/
def tmpPath (path : String) : String := path ++ ".tmp"

/-- First step of atomic_write_json: the full serialized data is written to
the temporary file. The target path is untouched by this step. -/
def writeTmp (fs : FS) (path : String) (data : FileData) : FS :=
  fsUpdate fs (tmpPath path) (some data)

/-- os.replace(src, dst): atomically rename src onto dst. -/
def osReplace (fs : FS) (src dst : String) : FS :=
  fun q => if q = dst then fs src else if q = src then none else fs q

/-- atomic_write_json: write the full content to path + ".tmp", then rename
the temporary file onto the target path. -/
def atomic_write_json (fs : FS) (path : String) (data : FileData) : FS :=
  osReplace (writeTmp fs path data) (tmpPath path) path

/-- app_dir(): the directory of the application file. Its concrete value is
environment-dependent; it is modelled as a fixed abstract path. -/
def app_dir : String := "/app"

/-- os.path.join for the fixed paths used by the program. -/
def joinPath (a b : String) : String := a ++ "/" ++ b

/-- OVERLAY_EXE_NAME constant from the source. -/
def OVERLAY_EXE_NAME : String := "CrosshairOverlay.exe"

/-- OVERLAY_JSON_NAME constant from the source. -/
def OVERLAY_JSON_NAME : String := "overlay_settings.json"

/-- APP_SETTINGS_NAME constant from the source. -/
def APP_SETTINGS_NAME : String := "app_settings.json"

/-- The fixed path of the settings file used by load() and save(). -/
def app_settings_path : String := joinPath app_dir APP_SETTINGS_NAME

/-- SettingsModel.save followed by the file write: serialize the record and
atomically replace the settings file. -/
def SettingsModel.save_fs (fs : FS) (m : SettingsModel) : FS :=
  atomic_write_json fs app_settings_path (.jsonData m.save)

/-- Reading and parsing the settings file from a file system state, producing
the FileRead outcome consumed by SettingsModel.load. -/
def readSettings (fs : FS) : FileRead :=
  match fs app_settings_path with
  | none => .missing
  | some (.jsonData o) => .parsed (.obj o)
  | some .binary => .unreadable

/-- A spawned overlay process handle. alive models poll() returning None;
termRequested records that terminate() was called on the handle. -/
structure Proc : Type where
  alive : Bool
  termRequested : Bool

/-- A record of one subprocess.Popen call: the executable, the working
directory and whether the console window was suppressed (detached). -/
structure SpawnCall : Type where
  exe : String
  cwd : String
  noWindow : Bool

/-- OverlayController state: the shared settings record, the stored process
handle, and a log of every spawn performed (for counting spawns). -/
structure OverlayController : Type where
  model : SettingsModel
  proc : Option Proc
  spawnLog : List SpawnCall

/-- OverlayController.__init__. -/
def OverlayController.mk0 (m : SettingsModel) : OverlayController :=
  { model := m, proc := none, spawnLog := [] }

/-- OverlayController.overlay_exe_path. -/
def overlay_exe_path : String := joinPath app_dir OVERLAY_EXE_NAME

/-- OverlayController.overlay_json_path. -/
def overlay_json_path : String := joinPath app_dir OVERLAY_JSON_NAME

/-- self.proc is not None and self.proc.poll() is None. -/
def procAlive : Option Proc → Bool
  | none => false
  | some p => p.alive

/-- OverlayController.ensure_overlay_running. The source checks the
executable path first and raises FileNotFoundError if it is absent; only then
does it return early when the stored handle is still alive; otherwise it
spawns the overlay detached (no console window) with cwd set to app_dir. -/
def OverlayController.ensure_overlay_running (fs : FS) (c : OverlayController) :
    Except String OverlayController :=
  if (fs overlay_exe_path).isNone then
    .error ("Missing " ++ OVERLAY_EXE_NAME ++ " next to the .py file.")
  else if procAlive c.proc then
    .ok c
  else
    .ok { c with
          proc := some { alive := true, termRequested := false }
          spawnLog := c.spawnLog ++ [{ exe := overlay_exe_path, cwd := app_dir, noWindow := true }] }

/-- OverlayController.write_overlay_settings: serialize the overlay
projection of the current record and atomically write it to the overlay
configuration file. A TypeError raised while building the projection
propagates before anything is written. -/
def OverlayController.write_overlay_settings (fs : FS) (c : OverlayController) :
    Except String FS :=
  match c.model.to_overlay_json with
  | .error e => .error e
  | .ok o => .ok (atomic_write_json fs overlay_json_path (.jsonData o))

/-- OverlayController.set_enabled: store bool(enabled) in the record; if now
enabled, ensure the overlay process is running (a FileNotFoundError from that
step propagates, skipping the write); then write the overlay configuration (a
TypeError from serializing the projection also propagates, with nothing
written). -/
def OverlayController.set_enabled (fs : FS) (c : OverlayController) (enabled : Bool) :
    Except String (OverlayController × FS) :=
  let c1 : OverlayController := { c with model := { c.model with enabled := enabled } }
  if c1.model.enabled then
    match OverlayController.ensure_overlay_running fs c1 with
    | .error e => .error e
    | .ok c2 =>
      match OverlayController.write_overlay_settings fs c2 with
      | .error e => .error e
      | .ok fs2 => .ok (c2, fs2)
  else
    match OverlayController.write_overlay_settings fs c1 with
    | .error e => .error e
    | .ok fs2 => .ok (c1, fs2)

/-- self.proc.terminate(): request termination of the stored handle. -/
def terminateProc (c : OverlayController) : OverlayController :=
  match c.proc with
  | some p => { c with proc := some { p with termRequested := true } }
  | none => c

/-- OverlayController.shutdown. Each of the two try blocks may raise inside:
the first from serializing the projection (the modelled TypeError) or from
the file I/O (the writeRaises flag), the second from the process poll or
terminate call (the termRaises flag). All such exceptions are swallowed, so
the function is total. The enabled flag is set to false before the write is
attempted, and any raising write leaves the target file untouched (the
atomic write only publishes a completed file). -/
def OverlayController.shutdown (writeRaises termRaises : Bool) (fs : FS)
    (c : OverlayController) : OverlayController × FS :=
  let c1 : OverlayController := { c with model := { c.model with enabled := false } }
  let fs1 :=
    if writeRaises then fs
    else
      match OverlayController.write_overlay_settings fs c1 with
      | .error _ => fs
      | .ok fs2 => fs2
  let c2 :=
    if termRaises then c1
    else if procAlive c1.proc then terminateProc c1
    else c1
  (c2, fs1)

/-- The _RAID_TABLE constant: explosives needed per structure piece. -/
def RAID_TABLE : List (String × List (String × Int)) :=
  [ ("Wood Wall", [("Rockets", 2), ("C4", 1), ("Satchels", 4), ("Explosive Ammo", 49)])
  , ("Stone Wall", [("Rockets", 4), ("C4", 2), ("Satchels", 10), ("Explosive Ammo", 185)])
  , ("Metal Wall", [("Rockets", 8), ("C4", 4), ("Satchels", 23), ("Explosive Ammo", 400)])
  , ("Armored Wall", [("Rockets", 15), ("C4", 8), ("Satchels", 46), ("Explosive Ammo", 799)])
  , ("Sheet Door", [("Rockets", 2), ("C4", 1), ("Satchels", 4), ("Explosive Ammo", 63)])
  , ("Garage Door", [("Rockets", 3), ("C4", 2), ("Satchels", 9), ("Explosive Ammo", 150)])
  , ("Armored Door", [("Rockets", 5), ("C4", 3), ("Satchels", 15), ("Explosive Ammo", 280)]) ]

/-- The _COSTS constant: sulfur and gunpowder cost per explosive. -/
def COSTS : List (String × (Int × Int)) :=
  [ ("Rockets", (1400, 650))
  , ("C4", (2200, 1000))
  , ("Satchels", (480, 240))
  , ("Explosive Ammo", (25, 10)) ]

/-- The quantities computed by the raid calculator's refresh closure. -/
structure RaidResult : Type where
  total_needed : Int
  sulfur_direct : Int
  gp : Int
  charcoal : Int
  sulfur_for_gp : Int
  sulfur_total : Int
deriving DecidableEq, Repr

/-- App.open_raid_calculator.refresh: the arithmetic performed on the chosen
structure, method and count. The count is clamped below at 1; a structure or
method absent from the tables contributes 0, matching the dict.get defaults. -/
def raid_refresh (struct method : String) (count : Int) : RaidResult :=
  let cnt := max 1 count
  let per_piece : Int :=
    match List.lookup struct RAID_TABLE with
    | some row => (List.lookup method row).getD 0
    | none => 0
  let total_needed := per_piece * cnt
  let cost := (List.lookup method COSTS).getD (0, 0)
  let sulfur_direct := cost.1 * total_needed
  let gp := cost.2 * total_needed
  let sulfur_for_gp := gp * 2
  let charcoal := gp
  let sulfur_total := sulfur_direct + sulfur_for_gp
  { total_needed := total_needed
    sulfur_direct := sulfur_direct
    gp := gp
    charcoal := charcoal
    sulfur_for_gp := sulfur_for_gp
    sulfur_total := sulfur_total }

/-- An empty file system: no settings file, no overlay executable. -/
def fsEmpty : FS := fun _ => none

/-- A file system holding only the overlay executable. -/
def fsWithExe : FS :=
  fun p => if p = overlay_exe_path then some .binary else none

/-- A concrete valid preference record, with boundary opacity 1.0. -/
def sampleModel : SettingsModel :=
  { enabled := true
    style_ui := .str "Plus"
    size := 12
    thickness := 3
    outline := 1
    color_ui := .str "Green"
    opacity := 1
    dark_mode := false }

/-- A record whose style_ui and color_ui are not recognized UI choices. -/
def weirdModel : SettingsModel :=
  { SettingsModel.init with style_ui := .str "Sphere", color_ui := Json.null }

/-- A freshly constructed controller over the default record. -/
def ctrlInit : OverlayController := OverlayController.mk0 SettingsModel.init

/-- The handle of a process that was just spawned and is still alive. -/
def spawnedProc : Proc := { alive := true, termRequested := false }

/-- The spawn call ensure_overlay_running performs. -/
def overlaySpawnCall : SpawnCall :=
  { exe := overlay_exe_path, cwd := app_dir, noWindow := true }

/-- The controller right after its first successful spawn. -/
def ctrlSpawned : OverlayController :=
  { ctrlInit with proc := some spawnedProc, spawnLog := [overlaySpawnCall] }

/-- A controller holding a live process handle but with an empty spawn log
(the process predates the scenario under study). -/
def ctrlAlive : OverlayController := { ctrlInit with proc := some spawnedProc }

/-- The controller after set_enabled false on the fresh controller. -/
def ctrlOff : OverlayController :=
  { ctrlInit with model := { SettingsModel.init with enabled := false } }

/-- The overlay projection of the default record with enabled false (also the
projection of weirdModel, whose unrecognized style and non-string color fall
back to dot and white). -/
def initOverlayObj : JsonObj :=
  [ ("enabled", .bool false)
  , ("style", .str "dot")
  , ("size", .num 6)
  , ("thickness", .num 2)
  , ("outline", .num 0)
  , ("color", .str "white")
  , ("opacity", .num (max 0 (min 1 1))) ]

/-- The file system produced by the set_enabled false call on the fresh
controller over fsWithExe. -/
def fsOffOut : FS :=
  atomic_write_json fsWithExe overlay_json_path (.jsonData initOverlayObj)

/-- A parsed settings file holding an out-of-range opacity. -/
def badOpacityFile : FileRead := .parsed (.obj [("opacity", .num 5)])

/-- A record holding a JSON array in style_ui, as load stores it from a
settings file with a list there. -/
def unhashableModel : SettingsModel :=
  { SettingsModel.init with style_ui := .arr [] }

/-- A record holding an out-of-range opacity, as load stores it. -/
def highOpacityModel : SettingsModel :=
  { SettingsModel.init with opacity := 5 }

/-- The overlay projection of highOpacityModel. -/
def highOpacityObj : JsonObj :=
  [ ("enabled", .bool false)
  , ("style", .str "dot")
  , ("size", .num 6)
  , ("thickness", .num 2)
  , ("outline", .num 0)
  , ("color", .str "white")
  , ("opacity", .num (max 0 (min 1 5))) ]

/-- The tmp path differs from the target path (it is four characters longer),
so writing the tmp file never touches the target. -/
theorem tmpPath_ne (path : String) : tmpPath path ≠ path := by
  intro h
  have hlen := congrArg String.length h
  simp [tmpPath, String.length_append] at hlen
  exact absurd hlen (by decide)

/-- Reading the target path right after atomic_write_json yields exactly the
data that was written. -/
theorem atomic_write_json_read_back (fs : FS) (path : String) (data : FileData) :
    atomic_write_json fs path data path = some data := by
  unfold atomic_write_json osReplace writeTmp fsUpdate
  simp

/-- Reading any other path (neither the target nor its tmp file) after
atomic_write_json sees the prior file system. -/
theorem atomic_write_json_read_other (fs : FS) (path other : String) (data : FileData)
    (h1 : other ≠ path) (h2 : other ≠ tmpPath path) :
    atomic_write_json fs path data other = fs other := by
  unfold atomic_write_json osReplace writeTmp fsUpdate
  simp [h1, h2]

/-- When write_overlay_settings succeeds, the projection serialized was some
ok object and the overlay configuration path afterwards holds exactly it. -/
theorem write_overlay_settings_ok_inv (fs fs2 : FS) (c : OverlayController)
    (h : OverlayController.write_overlay_settings fs c = .ok fs2) :
    ∃ o, c.model.to_overlay_json = .ok o
      ∧ fs2 overlay_json_path = some (.jsonData o) := by
  unfold OverlayController.write_overlay_settings at h
  split at h
  · exact absurd h (by simp)
  · next o ho =>
    refine ⟨o, ho, ?_⟩
    rw [← Except.ok.inj h]
    exact atomic_write_json_read_back fs overlay_json_path _

/-- When the projection serializes, write_overlay_settings succeeds and
returns the file system with the projection atomically written. -/
theorem write_overlay_settings_of_json (fs : FS) (c : OverlayController) (o : JsonObj)
    (h : c.model.to_overlay_json = .ok o) :
    OverlayController.write_overlay_settings fs c
      = .ok (atomic_write_json fs overlay_json_path (.jsonData o)) := by
  unfold OverlayController.write_overlay_settings
  rw [h]

/-- Truncation toward zero is the identity on integers. -/
theorem ratTrunc_intCast (n : Int) : ratTrunc (n : ℚ) = n := by
  unfold ratTrunc
  split <;> simp

/-- Inversion for a successful ensure_overlay_running call: the executable
was present, the returned controller holds a live handle, and the shared
record is untouched. -/
theorem ensure_ok_inv (fs : FS) (c c2 : OverlayController)
    (h : OverlayController.ensure_overlay_running fs c = .ok c2) :
    (fs overlay_exe_path).isSome = true
      ∧ procAlive c2.proc = true
      ∧ c2.model = c.model := by
  unfold OverlayController.ensure_overlay_running at h
  split at h
  · exact absurd h (by simp)
  · next hexe =>
    split at h
    · next halive =>
      cases h
      exact ⟨by simpa [Option.isNone_iff_eq_none, Option.isSome_iff_ne_none] using hexe,
             halive, rfl⟩
    · cases h
      exact ⟨by simpa [Option.isNone_iff_eq_none, Option.isSome_iff_ne_none] using hexe,
             rfl, rfl⟩

/-- ensure_overlay_running succeeds whenever the executable is present. -/
theorem ensure_ok_of_exe (fs : FS) (c : OverlayController)
    (h : (fs overlay_exe_path).isSome = true) :
    ∃ c2, OverlayController.ensure_overlay_running fs c = .ok c2 := by
  unfold OverlayController.ensure_overlay_running
  rcases hfs : fs overlay_exe_path with _ | d
  · rw [hfs] at h
    simp at h
  · simp only [Option.isNone_some, Bool.false_eq_true, if_false]
    by_cases halive : procAlive c.proc = true
    · exact ⟨c, by rw [if_pos halive]⟩
    · exact ⟨_, by rw [if_neg halive]⟩

/-- C1: if the settings file is missing, or reading/parsing it fails, load
returns with the in-memory record exactly unchanged (in particular the
default record stays the default record) and no exception reaches the
caller. -/
theorem load_failure_keeps_record (m : SettingsModel) (f : FileRead)
    (h : f = FileRead.missing ∨ f = FileRead.unreadable) :
    SettingsModel.load m f = (m, none) := by
  rcases h with h | h <;> subst h <;> rfl

/-- Witness for C1: loading an unreadable (e.g. truncated) settings file into
the default record leaves the default record intact with no exception. -/
theorem load_failure_keeps_record_witness :
    SettingsModel.load SettingsModel.init FileRead.unreadable
      = (SettingsModel.init, none) :=
  load_failure_keeps_record SettingsModel.init FileRead.unreadable (Or.inr rfl)

/-- C3: atomic_write_json first writes the full content to the tmp file, a
step that leaves the target path untouched whatever content (even partial
junk) has reached the tmp file so far; only the final rename publishes the
full content at the target path. So a crash at any point before the rename
leaves the prior target file intact, and no reader ever observes a partially
written target. -/
theorem atomic_write_json_atomic (fs : FS) (path : String) (data junk : FileData) :
    writeTmp fs path data path = fs path
  ∧ writeTmp fs path junk path = fs path
  ∧ atomic_write_json fs path data path = some data := by
  refine ⟨?_, ?_, atomic_write_json_read_back fs path data⟩
  · unfold writeTmp fsUpdate
    rw [if_neg (fun hh => tmpPath_ne path hh.symm)]
  · unfold writeTmp fsUpdate
    rw [if_neg (fun hh => tmpPath_ne path hh.symm)]

/-- C9: the raid calculator on Stone Wall, Rockets, count 3 computes
total 12, direct sulfur 16800, gunpowder 7800, sulfur for gunpowder 15600
and total sulfur 32400. -/
theorem raid_calculator_stone_wall_rockets_3 :
    raid_refresh "Stone Wall" "Rockets" 3 =
      { total_needed := 12
        sulfur_direct := 16800
        gp := 7800
        charcoal := 7800
        sulfur_for_gp := 15600
        sulfur_total := 32400 } := by
  decide

/-- C2: saving a preference record with valid field values (UI style and
color choices, boundary opacity included) and loading the settings file back
into a fresh default record reproduces the saved record field for field,
with no exception. -/
theorem save_load_roundtrip (fs : FS) (m : SettingsModel)
    (hstyle : m.style_ui = Json.str "Dot" ∨ m.style_ui = Json.str "Plus"
      ∨ m.style_ui = Json.str "Cross")
    (hcolor : m.color_ui = Json.str "White" ∨ m.color_ui = Json.str "Red"
      ∨ m.color_ui = Json.str "Green" ∨ m.color_ui = Json.str "Blue")
    (hop0 : 0 ≤ m.opacity) (hop1 : m.opacity ≤ 1) :
    SettingsModel.load SettingsModel.init (readSettings (SettingsModel.save_fs fs m))
      = (m, none) := by
  have hread : readSettings (SettingsModel.save_fs fs m) = .parsed (.obj m.save) := by
    unfold readSettings SettingsModel.save_fs
    rw [atomic_write_json_read_back]
  rw [hread]
  cases m with
  | mk enabled style_ui size thickness outline color_ui opacity dark_mode =>
    simp [SettingsModel.load, SettingsModel.save, jget, List.lookup, pyBool, pyInt,
      pyFloat, ratTrunc_intCast]

/-- Witness for C2: the round trip at a concrete valid record whose opacity
sits at the boundary value 1.0. -/
theorem save_load_roundtrip_witness :
    SettingsModel.load SettingsModel.init
        (readSettings (SettingsModel.save_fs fsEmpty sampleModel))
      = (sampleModel, none) :=
  save_load_roundtrip fsEmpty sampleModel
    (Or.inr (Or.inl rfl))
    (Or.inr (Or.inr (Or.inl rfl)))
    (by norm_num [sampleModel])
    (by norm_num [sampleModel])

/-- C5: a second ensure_overlay_running call made while the process spawned
by the first call is still alive returns the controller unchanged: the stored
handle is the same and the spawn log is the same, so no second process is
spawned. -/
theorem ensure_twice_no_spawn (fs : FS) (c c1 : OverlayController)
    (h1 : OverlayController.ensure_overlay_running fs c = .ok c1)
    (h2 : procAlive c1.proc = true) :
    OverlayController.ensure_overlay_running fs c1 = .ok c1 := by
  have hexe := (ensure_ok_inv fs c c1 h1).1
  unfold OverlayController.ensure_overlay_running
  rcases hfs : fs overlay_exe_path with _ | d
  · rw [hfs] at hexe
    simp at hexe
  · simp only [Option.isNone_some, Bool.false_eq_true, if_false]
    rw [if_pos h2]

/-- Witness for C5: a fresh controller spawns once; with the spawned process
alive, the second call returns the controller unchanged. -/
theorem ensure_twice_no_spawn_witness :
    OverlayController.ensure_overlay_running fsWithExe ctrlSpawned = .ok ctrlSpawned :=
  ensure_twice_no_spawn fsWithExe ctrlInit ctrlSpawned rfl rfl

/-- Counterexample to C6: with a live process handle stored but the overlay
executable absent, ensure_overlay_running raises the missing-dependency
error instead of returning without error, because the source checks the
executable path before the liveness check. -/
theorem ensure_checks_exe_first_cex :
    OverlayController.ensure_overlay_running fsEmpty ctrlAlive
      = .error ("Missing " ++ OVERLAY_EXE_NAME ++ " next to the .py file.") := rfl

/-- C6 amended: ensure_overlay_running first checks the fixed executable
path and raises the missing-dependency error exactly when that executable is
absent; only then, if the previously-spawned handle is still alive, it
returns without spawning (controller unchanged); otherwise it spawns the
process detached (no console window) with working directory app_dir. -/
theorem ensure_spec (fs : FS) (c : OverlayController) :
    ((fs overlay_exe_path) = none →
      OverlayController.ensure_overlay_running fs c
        = .error ("Missing " ++ OVERLAY_EXE_NAME ++ " next to the .py file."))
  ∧ ((fs overlay_exe_path).isSome = true → procAlive c.proc = true →
      OverlayController.ensure_overlay_running fs c = .ok c)
  ∧ ((fs overlay_exe_path).isSome = true → procAlive c.proc = false →
      OverlayController.ensure_overlay_running fs c = .ok
        { c with
          proc := some { alive := true, termRequested := false }
          spawnLog := c.spawnLog
            ++ [{ exe := overlay_exe_path, cwd := app_dir, noWindow := true }] })
  ∧ (∀ c2, OverlayController.ensure_overlay_running fs c = .ok c2 →
      (fs overlay_exe_path).isSome = true) := by
  refine ⟨?_, ?_, ?_, ?_⟩
  · intro hnone
    unfold OverlayController.ensure_overlay_running
    rw [hnone]
    rfl
  · intro hsome halive
    unfold OverlayController.ensure_overlay_running
    rcases hfs : fs overlay_exe_path with _ | d
    · rw [hfs] at hsome
      simp at hsome
    · simp only [Option.isNone_some, Bool.false_eq_true, if_false]
      rw [if_pos halive]
  · intro hsome hdead
    unfold OverlayController.ensure_overlay_running
    rcases hfs : fs overlay_exe_path with _ | d
    · rw [hfs] at hsome
      simp at hsome
    · simp only [Option.isNone_some, Bool.false_eq_true, if_false]
      rw [if_neg (by rw [hdead]; exact Bool.false_ne_true)]
  · intro c2 hok
    exact (ensure_ok_inv fs c c2 hok).1

/-- Witness for C6 amended: the three behaviours at concrete states — error
with the executable absent even though a process is alive; unchanged return
with the executable present and a live process; spawn with the executable
present and no process. -/
theorem ensure_spec_witness :
    OverlayController.ensure_overlay_running fsEmpty ctrlInit
      = .error ("Missing " ++ OVERLAY_EXE_NAME ++ " next to the .py file.")
  ∧ OverlayController.ensure_overlay_running fsWithExe ctrlAlive = .ok ctrlAlive
  ∧ OverlayController.ensure_overlay_running fsWithExe ctrlInit = .ok ctrlSpawned :=
  ⟨(ensure_spec fsEmpty ctrlInit).1 rfl,
   (ensure_spec fsWithExe ctrlAlive).2.1 rfl rfl,
   (ensure_spec fsWithExe ctrlInit).2.2.1 rfl rfl⟩

/-- Counterexample to C4: with the overlay executable absent, set_enabled
true raises the missing-dependency error from ensure_overlay_running and
returns before writing the overlay configuration file, so the write does not
happen on every call. -/
theorem set_enabled_skips_write_cex :
    OverlayController.set_enabled fsEmpty ctrlInit true
      = .error ("Missing " ++ OVERLAY_EXE_NAME ++ " next to the .py file.") := rfl


/-- C4 amended: set_enabled(flag) stores flag in the record's enabled field;
when flag is true it first ensures the overlay process is running; it writes
the overlay configuration file afterward in every call that does not raise —
a call raises exactly when flag is true and the overlay executable is absent,
or when serializing the projection raises TypeError (a record whose style_ui
or color_ui holds a JSON list or dict, storable by load). -/
theorem set_enabled_spec (fs : FS) (c : OverlayController) (flag : Bool) :
    (∀ c2 fs2, OverlayController.set_enabled fs c flag = .ok (c2, fs2) →
       c2.model.enabled = flag
       ∧ (∃ o, SettingsModel.to_overlay_json c2.model = .ok o
            ∧ fs2 overlay_json_path = some (.jsonData o))
       ∧ (flag = true → procAlive c2.proc = true))
  ∧ (∀ o, SettingsModel.to_overlay_json { c.model with enabled := flag } = .ok o →
       (flag = false ∨ (fs overlay_exe_path).isSome = true) →
       ∃ r, OverlayController.set_enabled fs c flag = .ok r) := by
  cases flag with
  | false =>
    have hbody : OverlayController.set_enabled fs c false =
        (match OverlayController.write_overlay_settings fs
            { c with model := { c.model with enabled := false } } with
         | .error e => .error e
         | .ok fs2 => .ok ({ c with model := { c.model with enabled := false } }, fs2)) := rfl
    constructor
    · intro c2 fs2 h
      rw [hbody] at h
      rcases hW : OverlayController.write_overlay_settings fs
          { c with model := { c.model with enabled := false } } with e | fsW
      · rw [hW] at h
        exact absurd h (by simp)
      · rw [hW] at h
        have hc2 := Except.ok.inj h
        have hfst := congrArg Prod.fst hc2
        have hsnd := congrArg Prod.snd hc2
        simp only at hfst hsnd
        subst hfst
        subst hsnd
        rcases write_overlay_settings_ok_inv fs fsW _ hW with ⟨o, ho, hread⟩
        exact ⟨rfl, ⟨o, ho, hread⟩, fun hh => absurd hh (by simp)⟩
    · intro o ho _
      rw [hbody, write_overlay_settings_of_json fs _ o ho]
      exact ⟨_, rfl⟩
  | true =>
    have hbody : OverlayController.set_enabled fs c true =
        (match OverlayController.ensure_overlay_running fs
            { c with model := { c.model with enabled := true } } with
         | .error e => .error e
         | .ok c2 =>
           match OverlayController.write_overlay_settings fs c2 with
           | .error e => .error e
           | .ok fs2 => .ok (c2, fs2)) := rfl
    rcases hE : OverlayController.ensure_overlay_running fs
        { c with model := { c.model with enabled := true } } with e | cE
    · constructor
      · intro c2 fs2 h
        rw [hbody, hE] at h
        exact absurd h (by simp)
      · rintro o ho (hfalse | hsome)
        · exact absurd hfalse (by simp)
        · rcases ensure_ok_of_exe fs { c with model := { c.model with enabled := true } }
            hsome with ⟨c2, hc2⟩
          rw [hE] at hc2
          exact absurd hc2 (by simp)
    · have hinv := ensure_ok_inv fs _ cE hE
      constructor
      · intro c2 fs2 h
        rw [hbody, hE] at h
        dsimp only at h
        rcases hW : OverlayController.write_overlay_settings fs cE with e | fsW
        · rw [hW] at h
          exact absurd h (by simp)
        · rw [hW] at h
          have hc2 := Except.ok.inj h
          have hfst := congrArg Prod.fst hc2
          have hsnd := congrArg Prod.snd hc2
          simp only at hfst hsnd
          subst hfst
          subst hsnd
          rcases write_overlay_settings_ok_inv fs fsW cE hW with ⟨o, ho, hread⟩
          refine ⟨?_, ⟨o, ho, hread⟩, fun _ => hinv.2.1⟩
          rw [hinv.2.2]
      · intro o ho _
        have hoE : cE.model.to_overlay_json = .ok o := by
          rw [hinv.2.2]
          exact ho
        rw [hbody, hE]
        dsimp only
        rw [write_overlay_settings_of_json fs cE o hoE]
        exact ⟨_, rfl⟩

/-- Witness for C4 amended: with the executable present, the disable call on
the fresh controller succeeds, stores false and atomically writes the
projection of the disabled record. -/
theorem set_enabled_spec_witness :
    ctrlOff.model.enabled = false
  ∧ fsOffOut overlay_json_path = some (.jsonData initOverlayObj)
  ∧ (OverlayController.set_enabled fsWithExe ctrlInit false).isOk = true := by
  have h1 := (set_enabled_spec fsWithExe ctrlInit false).1 ctrlOff fsOffOut rfl
  rcases (set_enabled_spec fsWithExe ctrlInit false).2 initOverlayObj rfl (Or.inl rfl)
    with ⟨r, hr⟩
  refine ⟨h1.1, ?_, by rw [hr]; rfl⟩
  rcases h1.2.1 with ⟨o, ho, hread⟩
  have hoo : o = initOverlayObj :=
    Except.ok.inj (ho.symm.trans
      (rfl : SettingsModel.to_overlay_json ctrlOff.model = .ok initOverlayObj))
  rw [← hoo]
  exact hread

/-- When the projection raises, write_overlay_settings propagates the same
error and writes nothing. -/
theorem write_overlay_settings_of_error (fs : FS) (c : OverlayController) (e : String)
    (h : c.model.to_overlay_json = .error e) :
    OverlayController.write_overlay_settings fs c = .error e := by
  unfold OverlayController.write_overlay_settings
  rw [h]

/-- C7: shutdown is total — both internal try blocks swallow their
exceptions, the serialization TypeError as well as the modelled I/O and
process-control failures: it always leaves the record's enabled field false;
when the write step raises nothing, the overlay file afterwards holds the
projection of the disabled record (enabled:false); when the file I/O raises,
or the projection itself raises, the file system is untouched; and when the
terminate step does not raise and a live process handle is stored,
termination is requested on that handle. -/
theorem shutdown_spec (writeRaises termRaises : Bool) (fs : FS) (c : OverlayController) :
    (OverlayController.shutdown writeRaises termRaises fs c).1.model.enabled = false
  ∧ (writeRaises = false →
      ∀ o, SettingsModel.to_overlay_json { c.model with enabled := false } = .ok o →
        (OverlayController.shutdown writeRaises termRaises fs c).2 overlay_json_path
          = some (.jsonData o))
  ∧ (writeRaises = true →
      (OverlayController.shutdown writeRaises termRaises fs c).2 = fs)
  ∧ (∀ e, SettingsModel.to_overlay_json { c.model with enabled := false } = .error e →
      writeRaises = false →
      (OverlayController.shutdown writeRaises termRaises fs c).2 = fs)
  ∧ (termRaises = false → ∀ p, c.proc = some p → p.alive = true →
      (OverlayController.shutdown writeRaises termRaises fs c).1.proc
        = some { p with termRequested := true }) := by
  refine ⟨?_, ?_, ?_, ?_, ?_⟩
  · unfold OverlayController.shutdown terminateProc
    cases termRaises with
    | true => rfl
    | false =>
      simp only [Bool.false_eq_true, if_false]
      rcases c.proc with _ | p <;> split <;> rfl
  · intro hw o ho
    subst hw
    have hW := write_overlay_settings_of_json fs
        { c with model := { c.model with enabled := false } } o ho
    unfold OverlayController.shutdown
    dsimp only
    rw [hW]
    exact atomic_write_json_read_back fs overlay_json_path _
  · intro hw
    subst hw
    rfl
  · intro e he hw
    subst hw
    have hW := write_overlay_settings_of_error fs
        { c with model := { c.model with enabled := false } } e he
    unfold OverlayController.shutdown
    dsimp only
    rw [hW]
    rfl
  · intro ht p hp halive
    subst ht
    unfold OverlayController.shutdown terminateProc
    simp only [Bool.false_eq_true, if_false, hp]
    simp [procAlive, hp, halive]

/-- Witness for C7: shutdown with neither step raising, on a controller
whose record serializes, with a live process: enabled becomes false, the
overlay file holds the disabled projection, and termination is requested on
the stored handle. -/
theorem shutdown_spec_witness :
    (OverlayController.shutdown false false fsWithExe ctrlAlive).1.model.enabled = false
  ∧ (OverlayController.shutdown false false fsWithExe ctrlAlive).2 overlay_json_path
      = some (.jsonData initOverlayObj)
  ∧ (OverlayController.shutdown false false fsWithExe ctrlAlive).1.proc
      = some { spawnedProc with termRequested := true } :=
  ⟨(shutdown_spec false false fsWithExe ctrlAlive).1,
   (shutdown_spec false false fsWithExe ctrlAlive).2.1 rfl initOverlayObj rfl,
   (shutdown_spec false false fsWithExe ctrlAlive).2.2.2.2 rfl spawnedProc rfl rfl⟩

/-- Counterexample to C8: loading a settings file with opacity 5 stores 5 in
the record (load does not clamp), the stored value exceeds 1, and save writes
the unclamped 5 back out to the settings file. -/
theorem opacity_not_clamped_cex :
    (SettingsModel.load SettingsModel.init badOpacityFile).1.opacity = 5
  ∧ ¬ (SettingsModel.load SettingsModel.init badOpacityFile).1.opacity ≤ 1
  ∧ List.lookup "opacity"
      (SettingsModel.save (SettingsModel.load SettingsModel.init badOpacityFile).1)
      = some (.num 5) := by
  refine ⟨rfl, by decide, rfl⟩

/-- C8 amended: the opacity is clamped to the unit interval only in the
overlay projection: whenever to_overlay_json produces a dictionary, its
opacity entry is max(0, min(1, opacity)), which always lies in [0, 1]; the
value stored in the record by construction, load and UI updates, and written
by save, is the raw unclamped value (see the counterexample). -/
theorem overlay_opacity_clamped (m : SettingsModel) :
    (∀ o, m.to_overlay_json = .ok o →
       List.lookup "opacity" o = some (.num (max 0 (min 1 m.opacity))))
  ∧ 0 ≤ max 0 (min 1 m.opacity) ∧ max 0 (min 1 m.opacity) ≤ 1 := by
  refine ⟨?_, le_max_left 0 _, max_le (by norm_num) (min_le_left 1 _)⟩
  intro o h
  unfold SettingsModel.to_overlay_json at h
  split at h
  · exact absurd h (by simp)
  · split at h
    · exact absurd h (by simp)
    · rw [← Except.ok.inj h]
      rfl

/-- Witness for C8 amended: the projection of a record holding the
out-of-range opacity 5 carries the clamped value. -/
theorem overlay_opacity_clamped_witness :
    List.lookup "opacity" highOpacityObj
      = some (.num (max 0 (min 1 (5 : ℚ)))) :=
  (overlay_opacity_clamped highOpacityModel).1 highOpacityObj rfl

/-- dict.get raises TypeError exactly on unhashable keys; on hashable keys it
returns some value. -/
theorem dictGetStr_ok_of_hashable (m : List (String × String)) (k : Json) (d : String)
    (h : jsonHashable k = true) :
    ∃ r, dictGetStr m k d = .ok r := by
  cases k with
  | null => exact ⟨d, rfl⟩
  | bool b => exact ⟨d, rfl⟩
  | num q => exact ⟨d, rfl⟩
  | arr xs => exact absurd h (by simp [jsonHashable])
  | obj fs2 => exact absurd h (by simp [jsonHashable])
  | str s =>
    rcases hL : List.lookup s m with _ | v
    · exact ⟨d, by unfold dictGetStr; dsimp only; rw [hL]⟩
    · exact ⟨v, by unfold dictGetStr; dsimp only; rw [hL]⟩

/-- dict.get on the style map, whenever it returns at all, yields one of the
three overlay style names. -/
theorem dictGetStr_style_cases (k : Json) (r : String)
    (h : dictGetStr STYLE_MAP_TO_JSON k "dot" = .ok r) :
    r = "dot" ∨ r = "plus" ∨ r = "cross" := by
  unfold dictGetStr STYLE_MAP_TO_JSON at h
  cases k with
  | null => exact Or.inl (Except.ok.inj h).symm
  | bool b => exact Or.inl (Except.ok.inj h).symm
  | num q => exact Or.inl (Except.ok.inj h).symm
  | arr xs => exact absurd h (by simp)
  | obj fs2 => exact absurd h (by simp)
  | str s =>
    by_cases h1 : s = "Dot"
    · subst h1
      have h' : (Except.ok "dot" : Except String String) = .ok r := h
      exact Or.inl (Except.ok.inj h').symm
    by_cases h2 : s = "Plus"
    · subst h2
      have h' : (Except.ok "plus" : Except String String) = .ok r := h
      exact Or.inr (Or.inl (Except.ok.inj h').symm)
    by_cases h3 : s = "Cross"
    · subst h3
      have h' : (Except.ok "cross" : Except String String) = .ok r := h
      exact Or.inr (Or.inr (Except.ok.inj h').symm)
    have b1 : (s == "Dot") = false := beq_eq_false_iff_ne.mpr h1
    have b2 : (s == "Plus") = false := beq_eq_false_iff_ne.mpr h2
    have b3 : (s == "Cross") = false := beq_eq_false_iff_ne.mpr h3
    simp only [List.lookup, b1, b2, b3] at h
    exact Or.inl (Except.ok.inj h).symm

/-- dict.get on the style map with a hashable key that is none of the three
UI style strings yields the default "dot". -/
theorem dictGetStr_style_default (k : Json) (r : String)
    (h : dictGetStr STYLE_MAP_TO_JSON k "dot" = .ok r)
    (h1 : k ≠ .str "Dot") (h2 : k ≠ .str "Plus") (h3 : k ≠ .str "Cross") :
    r = "dot" := by
  unfold dictGetStr STYLE_MAP_TO_JSON at h
  cases k with
  | null => exact (Except.ok.inj h).symm
  | bool b => exact (Except.ok.inj h).symm
  | num q => exact (Except.ok.inj h).symm
  | arr xs => exact absurd h (by simp)
  | obj fs2 => exact absurd h (by simp)
  | str s =>
    have b1 : (s == "Dot") = false := beq_eq_false_iff_ne.mpr (fun hh => h1 (by rw [hh]))
    have b2 : (s == "Plus") = false := beq_eq_false_iff_ne.mpr (fun hh => h2 (by rw [hh]))
    have b3 : (s == "Cross") = false := beq_eq_false_iff_ne.mpr (fun hh => h3 (by rw [hh]))
    simp only [List.lookup, b1, b2, b3] at h
    exact (Except.ok.inj h).symm

/-- dict.get on the color map, whenever it returns at all, yields one of the
four overlay color names. -/
theorem dictGetStr_color_cases (k : Json) (r : String)
    (h : dictGetStr COLOR_MAP_TO_JSON k "white" = .ok r) :
    r = "white" ∨ r = "red" ∨ r = "green" ∨ r = "blue" := by
  unfold dictGetStr COLOR_MAP_TO_JSON at h
  cases k with
  | null => exact Or.inl (Except.ok.inj h).symm
  | bool b => exact Or.inl (Except.ok.inj h).symm
  | num q => exact Or.inl (Except.ok.inj h).symm
  | arr xs => exact absurd h (by simp)
  | obj fs2 => exact absurd h (by simp)
  | str s =>
    by_cases h1 : s = "White"
    · subst h1
      have h' : (Except.ok "white" : Except String String) = .ok r := h
      exact Or.inl (Except.ok.inj h').symm
    by_cases h2 : s = "Red"
    · subst h2
      have h' : (Except.ok "red" : Except String String) = .ok r := h
      exact Or.inr (Or.inl (Except.ok.inj h').symm)
    by_cases h3 : s = "Green"
    · subst h3
      have h' : (Except.ok "green" : Except String String) = .ok r := h
      exact Or.inr (Or.inr (Or.inl (Except.ok.inj h').symm))
    by_cases h4 : s = "Blue"
    · subst h4
      have h' : (Except.ok "blue" : Except String String) = .ok r := h
      exact Or.inr (Or.inr (Or.inr (Except.ok.inj h').symm))
    have b1 : (s == "White") = false := beq_eq_false_iff_ne.mpr h1
    have b2 : (s == "Red") = false := beq_eq_false_iff_ne.mpr h2
    have b3 : (s == "Green") = false := beq_eq_false_iff_ne.mpr h3
    have b4 : (s == "Blue") = false := beq_eq_false_iff_ne.mpr h4
    simp only [List.lookup, b1, b2, b3, b4] at h
    exact Or.inl (Except.ok.inj h).symm

/-- dict.get on the color map with a hashable key that is none of the four
UI color strings yields the default "white". -/
theorem dictGetStr_color_default (k : Json) (r : String)
    (h : dictGetStr COLOR_MAP_TO_JSON k "white" = .ok r)
    (h1 : k ≠ .str "White") (h2 : k ≠ .str "Red") (h3 : k ≠ .str "Green")
    (h4 : k ≠ .str "Blue") :
    r = "white" := by
  unfold dictGetStr COLOR_MAP_TO_JSON at h
  cases k with
  | null => exact (Except.ok.inj h).symm
  | bool b => exact (Except.ok.inj h).symm
  | num q => exact (Except.ok.inj h).symm
  | arr xs => exact absurd h (by simp)
  | obj fs2 => exact absurd h (by simp)
  | str s =>
    have b1 : (s == "White") = false := beq_eq_false_iff_ne.mpr (fun hh => h1 (by rw [hh]))
    have b2 : (s == "Red") = false := beq_eq_false_iff_ne.mpr (fun hh => h2 (by rw [hh]))
    have b3 : (s == "Green") = false := beq_eq_false_iff_ne.mpr (fun hh => h3 (by rw [hh]))
    have b4 : (s == "Blue") = false := beq_eq_false_iff_ne.mpr (fun hh => h4 (by rw [hh]))
    simp only [List.lookup, b1, b2, b3, b4] at h
    exact (Except.ok.inj h).symm

/-- Counterexample to C10: on a record holding a JSON array in style_ui — a
state load reaches from a settings file with a list there — to_overlay_json
raises TypeError instead of returning a dictionary with the dot fallback. -/
theorem to_overlay_json_unhashable_cex :
    SettingsModel.to_overlay_json unhashableModel
      = .error "TypeError: unhashable type" := rfl

/-- C10 amended: for every record state whose style_ui and color_ui are
hashable (anything but a JSON array or object — in particular arbitrary
strings there, with arbitrary numeric opacity), to_overlay_json returns a
dictionary; and every dictionary it ever returns has exactly the keys
enabled, style, size, thickness, outline, color, opacity, with the style one
of dot, plus, cross (any unrecognized style_ui mapping to dot), the color one
of white, red, green, blue (any unrecognized color_ui mapping to white), and
the opacity clamped into [0, 1]. On an array or object in those fields it
raises TypeError instead (see the counterexample). -/
theorem to_overlay_json_shape (m : SettingsModel) :
    (jsonHashable m.style_ui = true → jsonHashable m.color_ui = true →
       ∃ o, m.to_overlay_json = .ok o)
  ∧ (∀ o, m.to_overlay_json = .ok o →
       List.map Prod.fst o
         = ["enabled", "style", "size", "thickness", "outline", "color", "opacity"]
     ∧ (∀ s, List.lookup "style" o = some (.str s) →
          s = "dot" ∨ s = "plus" ∨ s = "cross")
     ∧ (m.style_ui ≠ .str "Dot" → m.style_ui ≠ .str "Plus" → m.style_ui ≠ .str "Cross" →
          List.lookup "style" o = some (.str "dot"))
     ∧ (∀ s, List.lookup "color" o = some (.str s) →
          s = "white" ∨ s = "red" ∨ s = "green" ∨ s = "blue")
     ∧ (m.color_ui ≠ .str "White" → m.color_ui ≠ .str "Red" → m.color_ui ≠ .str "Green" →
          m.color_ui ≠ .str "Blue" →
          List.lookup "color" o = some (.str "white"))
     ∧ (∀ q, List.lookup "opacity" o = some (.num q) → 0 ≤ q ∧ q ≤ 1)) := by
  constructor
  · intro hsh hch
    rcases dictGetStr_ok_of_hashable STYLE_MAP_TO_JSON m.style_ui "dot" hsh with ⟨st, hst⟩
    rcases dictGetStr_ok_of_hashable COLOR_MAP_TO_JSON m.color_ui "white" hch with ⟨co, hco⟩
    refine ⟨[ ("enabled", .bool m.enabled)
            , ("style", .str st)
            , ("size", .num m.size)
            , ("thickness", .num m.thickness)
            , ("outline", .num m.outline)
            , ("color", .str co)
            , ("opacity", .num (max 0 (min 1 m.opacity))) ], ?_⟩
    unfold SettingsModel.to_overlay_json
    rw [hst]
    dsimp only
    rw [hco]
  · intro o h
    unfold SettingsModel.to_overlay_json at h
    rcases hst : dictGetStr STYLE_MAP_TO_JSON m.style_ui "dot" with e | st
    · rw [hst] at h
      exact absurd h (by simp)
    · rw [hst] at h
      dsimp only at h
      rcases hco : dictGetStr COLOR_MAP_TO_JSON m.color_ui "white" with e | co
      · rw [hco] at h
        exact absurd h (by simp)
      · rw [hco] at h
        dsimp only at h
        have ho := Except.ok.inj h
        subst ho
        refine ⟨rfl, ?_, ?_, ?_, ?_, ?_⟩
        · intro s hs
          have hsv : st = s := by simpa [List.lookup] using hs
          rw [← hsv]
          exact dictGetStr_style_cases m.style_ui st hst
        · intro h1 h2 h3
          have hsv : st = "dot" := dictGetStr_style_default m.style_ui st hst h1 h2 h3
          simp [List.lookup, hsv]
        · intro s hs
          have hcv : co = s := by simpa [List.lookup] using hs
          rw [← hcv]
          exact dictGetStr_color_cases m.color_ui co hco
        · intro h1 h2 h3 h4
          have hcv : co = "white" := dictGetStr_color_default m.color_ui co hco h1 h2 h3 h4
          simp [List.lookup, hcv]
        · intro q hq
          have hqv : max 0 (min 1 m.opacity) = q := by simpa [List.lookup] using hq
          rw [← hqv]
          exact ⟨le_max_left 0 _, max_le (by norm_num) (min_le_left 1 _)⟩

/-- Witness for C10 amended: on a record whose style_ui is an unrecognized
string and whose color_ui is not a string at all (both hashable), the
projection is produced and falls back to dot and white. -/
theorem to_overlay_json_shape_witness :
    (SettingsModel.to_overlay_json weirdModel).isOk = true
  ∧ List.lookup "style" initOverlayObj = some (.str "dot")
  ∧ List.lookup "color" initOverlayObj = some (.str "white") := by
  have hchar := (to_overlay_json_shape weirdModel).2 initOverlayObj rfl
  refine ⟨?_, ?_, ?_⟩
  · rcases (to_overlay_json_shape weirdModel).1 rfl rfl with ⟨o, hoo⟩
    rw [hoo]
    rfl
  · exact hchar.2.2.1 (by simp [weirdModel, SettingsModel.init])
      (by simp [weirdModel, SettingsModel.init])
      (by simp [weirdModel, SettingsModel.init])
  · exact hchar.2.2.2.2.1 (by simp [weirdModel, SettingsModel.init])
      (by simp [weirdModel, SettingsModel.init])
      (by simp [weirdModel, SettingsModel.init])
      (by simp [weirdModel, SettingsModel.init])
